import Mathlib

/-!
# SIDE2 cartridge register model (`side2.c`)

A shallow embedding of the register decoder and bank controller of
`src/atari800-MacOSX/src/side2.c`.

* The module's `static int` variables become the fields of `State`, typed
  `Int` as in the source; the C truth values are `TRUE = 1` and `FALSE = 0`.
* A `UBYTE` or `UWORD` argument is a `Nat`; theorems that depend on the
  range of a byte carry the bound `b < 256`.
* The value returned by `SIDE2_D5GetByte` is the `int result` converted to
  `UBYTE`, that is, reduced modulo 256.
* Calls into the RTC and IDE collaborators (declared in `rtcds1305.h` and
  `ide.h`, outside this module) that return nothing are recorded, in order,
  in the field `calls`; the values the collaborators return to a read are
  taken as a parameter (`Adapters`).
* A register read assigns no static variable; as a step it returns the byte
  and the state it found (`getByteStep`).
* `LoadNVRAM` is a function of the file (absent, or its bytes) and of the
  content of its uninitialised local array; its value is the buffer handed to
  `CDS1305_Load`.
-/

namespace Side2

/-! ## C scalars -/

/-- The C constant `TRUE`. -/
def TRUE : Int := 1

/-- The C constant `FALSE`. -/
def FALSE : Int := 0

/-- C logical negation `!x` of an `int`. -/
def cNot (x : Int) : Int := if x = 0 then 1 else 0

/-- The `int` value of a C comparison. -/
def cBool (p : Bool) : Int := if p then 1 else 0

/-- Conversion of an `int` to `UBYTE` (`unsigned char`). -/
def toUBYTE (x : Int) : Nat := (x % 256).toNat

/-! ## Data model -/

/-- Calls made to the RTC and IDE collaborators that return no value. -/
inductive AdapterCall where
  | CDS1305_ColdReset : AdapterCall
  | CDS1305_WriteState (a b c : Int) : AdapterCall
  | IDE_PutByte (addr byte : Nat) : AdapterCall
  deriving DecidableEq

/-- The static variables of `side2.c` (lines 34-43) and the calls made so far. -/
structure State where
  Block_Device : Int
  IDE_Enabled : Int
  IDE_Removed : Int
  IDE_Reset : Int
  SDX_Bank_Register : Int
  SDX_Enabled : Int
  Top_Bank_Register : Int
  Top_Enable : Int
  Top_Left_Enable : Int
  Top_Right_Enable : Int
  calls : List AdapterCall
  deriving DecidableEq

/-- What the collaborators answer to a read: the value of
`CDS1305_ReadState(rtc)` and the function `IDE_GetByte`. -/
structure Adapters where
  CDS1305_ReadState : Int
  IDE_GetByte : Nat → Int → Nat

/-- The initial values of the static variables (lines 34-43). -/
def initial : State where
  Block_Device := 0
  IDE_Enabled := FALSE
  IDE_Removed := TRUE
  IDE_Reset := FALSE
  SDX_Bank_Register := 0
  SDX_Enabled := FALSE
  Top_Bank_Register := 0
  Top_Enable := FALSE
  Top_Left_Enable := FALSE
  Top_Right_Enable := FALSE
  calls := []

/-! ## Bank controller -/

/-- `Set_SDX_Bank` (lines 234-244). -/
def Set_SDX_Bank (s : State) (bank topEnable : Int) : State :=
  if s.SDX_Bank_Register = bank ∧ s.Top_Enable = topEnable then s
  else { s with SDX_Bank_Register := bank, Top_Enable := topEnable }

/-- `Set_Top_Bank` (lines 246-263). -/
def Set_Top_Bank (s : State) (bank topLeftEnable topRightEnable : Int) : State :=
  let bank := if topRightEnable ≠ 0 then Int.lor bank 0x01 else bank
  if s.Top_Bank_Register = bank ∧ s.Top_Right_Enable = topRightEnable
      ∧ s.Top_Left_Enable = topLeftEnable then s
  else { s with Top_Bank_Register := bank,
                Top_Left_Enable := topLeftEnable,
                Top_Right_Enable := topRightEnable }

/-- `Reset_Cart_Bank` (lines 265-272). -/
def Reset_Cart_Bank (s : State) : State :=
  let s := { s with SDX_Bank_Register := 0x00 }
  let s := Set_SDX_Bank s 0 TRUE
  let s := { s with Top_Bank_Register := 0x00 }
  Set_Top_Bank s 0x20 TRUE FALSE

/-- `Update_IDE_Reset` (lines 274-277): its body is commented out. -/
def Update_IDE_Reset (s : State) : State := s

/-! ## Lifecycle -/

/-- `SIDE2_ColdStart` (lines 184-200). -/
def SIDE2_ColdStart (s : State) : State :=
  let s := { s with calls := s.calls ++ [AdapterCall.CDS1305_ColdReset] }
  let s := Reset_Cart_Bank s
  let s := { s with IDE_Reset := TRUE }
  let s := { s with IDE_Enabled := TRUE }
  let s := { s with IDE_Removed := cNot s.Block_Device }
  Update_IDE_Reset s

/-! ## Register decoder -/

/-- `SIDE2_D5GetByte` (lines 85-132). -/
def SIDE2_D5GetByte (ad : Adapters) (s : State) (addr : Nat) (no_side_effects : Int) : Nat :=
  if addr = 0xD5F8 then 0x32
  else
    let result : Int :=
      if addr = 0xD5E1 then s.SDX_Bank_Register
      else if addr = 0xD5E2 then (if ad.CDS1305_ReadState ≠ 0 then 0x08 else 0x00)
      else if addr = 0xD5E4 then s.Top_Bank_Register
      else if addr = 0xD5F0 ∨ addr = 0xD5F1 ∨ addr = 0xD5F2 ∨ addr = 0xD5F3
          ∨ addr = 0xD5F4 ∨ addr = 0xD5F5 ∨ addr = 0xD5F6 ∨ addr = 0xD5F7 then
        (ad.IDE_GetByte addr FALSE : Int)
      else if addr = 0xD5F9 then (if s.IDE_Removed ≠ 0 then 1 else 0)
      else if addr = 0xD5FC then (if s.SDX_Enabled ≠ 0 then 0x53 else 0x20)
      else if addr = 0xD5FD then 0x49
      else if addr = 0xD5FE then 0x44
      else if addr = 0xD5FF then 0x45
      else 0xff
    toUBYTE result

/-- `SIDE2_D5PutByte` (lines 134-182). -/
def SIDE2_D5PutByte (s : State) (addr byte : Nat) : State :=
  if addr = 0xD5E1 then
    if s.SDX_Bank_Register ≠ (byte : Int) then
      let s := { s with SDX_Bank_Register := (byte : Int) }
      Set_SDX_Bank s (if byte &&& 0x80 ≠ 0 then -1 else ((byte &&& 0x3f : Nat) : Int))
        (cNot ((byte &&& 0x40 : Nat) : Int))
    else s
  else if addr = 0xD5E2 then
    { s with calls := s.calls ++ [AdapterCall.CDS1305_WriteState
        (cBool (byte &&& 1 != 0)) (cNot ((byte &&& 2 : Nat) : Int)) (cBool (byte &&& 4 != 0))] }
  else if addr = 0xD5E4 then
    if s.Top_Bank_Register ≠ (byte : Int) then
      let s := { s with Top_Bank_Register := (byte : Int) }
      Set_Top_Bank s (((byte &&& 0x3f) ^^^ 0x20 : Nat) : Int)
        (cBool (byte &&& 0x80 == 0)) (cBool (byte &&& 0x40 != 0))
    else s
  else if addr = 0xD5F0 ∨ addr = 0xD5F1 ∨ addr = 0xD5F2 ∨ addr = 0xD5F3
      ∨ addr = 0xD5F4 ∨ addr = 0xD5F5 ∨ addr = 0xD5F6 ∨ addr = 0xD5F7 then
    { s with calls := s.calls ++ [AdapterCall.IDE_PutByte addr byte] }
  else if addr = 0xD5F8 ∨ addr = 0xD5F9 ∨ addr = 0xD5FA ∨ addr = 0xD5FB then
    let s := if addr = 0xD5F9 then
        (if s.Block_Device ≠ 0 then { s with IDE_Removed := FALSE } else s)
      else s
    { s with IDE_Enabled := cNot ((byte &&& 0x80 : Nat) : Int) }
  else s

/-! ## Reachable states -/

/-- States reachable from the initial values by `SIDE2_ColdStart` and
`SIDE2_D5PutByte` calls (with a 16-bit address and an 8-bit value). -/
inductive Reachable : State → Prop where
  | init : Reachable initial
  | coldStart {s : State} : Reachable s → Reachable (SIDE2_ColdStart s)
  | putByte {s : State} (addr byte : Nat) :
      addr < 0x10000 → byte < 0x100 → Reachable s → Reachable (SIDE2_D5PutByte s addr byte)

/-- The values the two bank registers take in operation: `SDX_Bank_Register`
is -1 or a 6-bit bank, `Top_Bank_Register` is a 6-bit bank. -/
def RegRange (s : State) : Prop :=
  (s.SDX_Bank_Register = -1 ∨ (0 ≤ s.SDX_Bank_Register ∧ s.SDX_Bank_Register ≤ 0x3F))
  ∧ (0 ≤ s.Top_Bank_Register ∧ s.Top_Bank_Register ≤ 0x3F)

/-- `SIDE2_D5GetByte` as an operation on the module: the byte it returns and
the static variables after the call. Lines 85-132 assign none of them. -/
def getByteStep (ad : Adapters) (s : State) (addr : Nat) (no_side_effects : Int) : Nat × State :=
  (SIDE2_D5GetByte ad s addr no_side_effects, s)

/-- States reachable from the initial values by `SIDE2_ColdStart`,
`SIDE2_D5PutByte` and `SIDE2_D5GetByte` calls. -/
inductive ReachableAll : State → Prop where
  | init : ReachableAll initial
  | coldStart {s : State} : ReachableAll s → ReachableAll (SIDE2_ColdStart s)
  | putByte {s : State} (addr byte : Nat) :
      addr < 0x10000 → byte < 0x100 → ReachableAll s →
      ReachableAll (SIDE2_D5PutByte s addr byte)
  | getByte {s : State} (ad : Adapters) (addr : Nat) (no_side_effects : Int) :
      addr < 0x10000 → ReachableAll s →
      ReachableAll (getByteStep ad s addr no_side_effects).2

/-! ## Persistence -/

/-- The C library call `memset(buf, 0, sizeof(buf))` for `UBYTE buf[0x72]`:
the first 0x72 bytes of the buffer become zero. -/
def memsetBuf (buf : List Nat) : List Nat :=
  List.replicate 0x72 0 ++ buf.drop 0x72

/-- The C library call `fread(buf, 1, n, f)` on a file holding `file`: the
buffer after the call and the number of bytes read. Only the bytes read are
stored; the rest of the buffer keeps what it held. -/
def fread (buf : List Nat) (n : Nat) (file : List Nat) : List Nat × Nat :=
  (file.take n ++ buf.drop (min file.length n), min file.length n)

/-- `LoadNVRAM` (lines 202-219): the buffer passed to `CDS1305_Load(rtc, buf)`.
The file is `none` when `fopen` returns `NULL` and the bytes it holds
otherwise; `buf` is the content of the uninitialised local array. -/
def LoadNVRAM (file : Option (List Nat)) (buf : List Nat) : List Nat :=
  match file with
  | none => memsetBuf buf
  | some bytes =>
    let r := fread buf 0x72 bytes
    if r.2 ≠ 0x72 then memsetBuf r.1 else r.1

/-! ## Facts about the bits of a byte -/

set_option maxRecDepth 100000 in
theorem byte_bit7 : ∀ b < 256, (b &&& 0x80 ≠ 0 ↔ 128 ≤ b) := by decide

set_option maxRecDepth 100000 in
theorem byte_bit6_ge : ∀ b < 256, b &&& 0x40 ≠ 0 → 64 ≤ b := by decide

set_option maxRecDepth 100000 in
theorem byte_low6 : ∀ b < 256, (b &&& 0x3f ≤ 0x3f) ∧ (b < 64 → b &&& 0x3f = b)
    ∧ (64 ≤ b → b &&& 0x3f ≠ b) := by decide

set_option maxRecDepth 100000 in
theorem byte_top : ∀ b < 256, ((b &&& 0x3f) ^^^ 0x20 ≤ 0x3f)
    ∧ (((b &&& 0x3f) ^^^ 0x20) ||| 1 ≤ 0x3f)
    ∧ ((((b &&& 0x3f) ^^^ 0x20) ||| 1) % 2 = 1)
    ∧ ((b &&& 0x3f) ^^^ 0x20 ≠ b) := by decide

theorem int_lor_one (n : Nat) : Int.lor (n : Int) 0x01 = ((n ||| 1 : Nat) : Int) := rfl

/-! ## The effect of a bank register write -/

/-- The 0xD5E1 branch of `SIDE2_D5PutByte`. -/
theorem put_sdx_unfold (s : State) (b : Nat) :
    SIDE2_D5PutByte s 0xD5E1 b =
      if s.SDX_Bank_Register ≠ (b : Int) then
        Set_SDX_Bank { s with SDX_Bank_Register := (b : Int) }
          (if b &&& 0x80 ≠ 0 then -1 else ((b &&& 0x3f : Nat) : Int))
          (cNot ((b &&& 0x40 : Nat) : Int))
      else s := rfl

/-- The 0xD5E4 branch of `SIDE2_D5PutByte`. -/
theorem put_top_unfold (s : State) (b : Nat) :
    SIDE2_D5PutByte s 0xD5E4 b =
      if s.Top_Bank_Register ≠ (b : Int) then
        Set_Top_Bank { s with Top_Bank_Register := (b : Int) }
          (((b &&& 0x3f) ^^^ 0x20 : Nat) : Int)
          (cBool (b &&& 0x80 == 0)) (cBool (b &&& 0x40 != 0))
      else s := rfl

/-- `Set_SDX_Bank` stores both of its arguments, whatever was held before. -/
theorem Set_SDX_Bank_eq (s : State) (bank te : Int) :
    Set_SDX_Bank s bank te = { s with SDX_Bank_Register := bank, Top_Enable := te } := by
  unfold Set_SDX_Bank
  split_ifs with h
  · obtain ⟨h1, h2⟩ := h
    subst h1 h2
    rfl
  · rfl

/-- `Set_Top_Bank` stores its arguments, the bank with its low bit forced
when the right window is enabled, whatever was held before. -/
theorem Set_Top_Bank_eq (s : State) (bank tle tre : Int) :
    Set_Top_Bank s bank tle tre =
      { s with Top_Bank_Register := (if tre ≠ 0 then Int.lor bank 0x01 else bank),
               Top_Left_Enable := tle, Top_Right_Enable := tre } := by
  unfold Set_Top_Bank
  dsimp only
  generalize (if tre ≠ 0 then Int.lor bank 0x01 else bank) = bk
  split_ifs with h
  · obtain ⟨e1, e2, e3⟩ := h
    subst e1 e2 e3
    rfl
  · rfl

/-- A write to 0xD5E1 of a value other than the one held in
`SDX_Bank_Register` stores the decoded bank and the enable flag. -/
theorem put_sdx_ne (s : State) (b : Nat) (h : s.SDX_Bank_Register ≠ (b : Int)) :
    SIDE2_D5PutByte s 0xD5E1 b =
      { s with SDX_Bank_Register := (if b &&& 0x80 ≠ 0 then -1 else ((b &&& 0x3f : Nat) : Int)),
               Top_Enable := cNot ((b &&& 0x40 : Nat) : Int) } := by
  rw [put_sdx_unfold, if_pos h, Set_SDX_Bank_eq]

/-- A write to 0xD5E1 of the value held in `SDX_Bank_Register` changes nothing. -/
theorem put_sdx_eq (s : State) (b : Nat) (h : s.SDX_Bank_Register = (b : Int)) :
    SIDE2_D5PutByte s 0xD5E1 b = s := by
  rw [put_sdx_unfold, if_neg (not_not.mpr h)]

/-- A write to 0xD5E4 of a value other than the one held in
`Top_Bank_Register` stores the decoded bank and the two enable flags. -/
theorem put_top_ne (s : State) (b : Nat) (h : s.Top_Bank_Register ≠ (b : Int)) :
    SIDE2_D5PutByte s 0xD5E4 b =
      { s with Top_Bank_Register :=
                 (if cBool (b &&& 0x40 != 0) ≠ 0
                  then Int.lor (((b &&& 0x3f) ^^^ 0x20 : Nat) : Int) 0x01
                  else (((b &&& 0x3f) ^^^ 0x20 : Nat) : Int)),
               Top_Left_Enable := cBool (b &&& 0x80 == 0),
               Top_Right_Enable := cBool (b &&& 0x40 != 0) } := by
  rw [put_top_unfold, if_pos h, Set_Top_Bank_eq]

/-- A write to 0xD5E4 of the value held in `Top_Bank_Register` changes nothing. -/
theorem put_top_eq (s : State) (b : Nat) (h : s.Top_Bank_Register = (b : Int)) :
    SIDE2_D5PutByte s 0xD5E4 b = s := by
  rw [put_top_unfold, if_neg (not_not.mpr h)]

/-- A write to an address other than the two bank registers leaves the bank
state as it was. -/
theorem put_other_banks (s : State) (addr b : Nat) (h1 : addr ≠ 0xD5E1) (h4 : addr ≠ 0xD5E4) :
    (SIDE2_D5PutByte s addr b).SDX_Bank_Register = s.SDX_Bank_Register
    ∧ (SIDE2_D5PutByte s addr b).Top_Enable = s.Top_Enable
    ∧ (SIDE2_D5PutByte s addr b).Top_Bank_Register = s.Top_Bank_Register
    ∧ (SIDE2_D5PutByte s addr b).Top_Left_Enable = s.Top_Left_Enable
    ∧ (SIDE2_D5PutByte s addr b).Top_Right_Enable = s.Top_Right_Enable := by
  unfold SIDE2_D5PutByte
  rw [if_neg h1, if_neg h4]
  split_ifs <;> exact ⟨rfl, rfl, rfl, rfl, rfl⟩

/-- The state `SIDE2_ColdStart` leaves, field by field. -/
theorem SIDE2_ColdStart_eq (s : State) :
    SIDE2_ColdStart s =
      { s with calls := s.calls ++ [AdapterCall.CDS1305_ColdReset],
               SDX_Bank_Register := 0, Top_Enable := TRUE,
               Top_Bank_Register := 0x20, Top_Left_Enable := TRUE, Top_Right_Enable := FALSE,
               IDE_Reset := TRUE, IDE_Enabled := TRUE,
               IDE_Removed := cNot s.Block_Device } := by
  unfold SIDE2_ColdStart Update_IDE_Reset Reset_Cart_Bank
  simp only [Set_SDX_Bank_eq, Set_Top_Bank_eq]
  rfl

/-! ## Range of the bank registers -/

theorem RegRange_initial : RegRange initial := by
  unfold RegRange initial
  simp

theorem RegRange_ColdStart (s : State) : RegRange (SIDE2_ColdStart s) := by
  rw [SIDE2_ColdStart_eq]
  unfold RegRange
  simp

theorem RegRange_put (s : State) (addr b : Nat) (hb : b < 256) (h : RegRange s) :
    RegRange (SIDE2_D5PutByte s addr b) := by
  obtain ⟨hsdx, htop⟩ := h
  by_cases h1 : addr = 0xD5E1
  · subst h1
    by_cases e : s.SDX_Bank_Register = (b : Int)
    · rw [put_sdx_eq s b e]
      exact ⟨hsdx, htop⟩
    · rw [put_sdx_ne s b e]
      refine ⟨?_, htop⟩
      have hl := (byte_low6 b hb).1
      dsimp only
      split_ifs
      · exact Or.inl rfl
      · right
        omega
  · by_cases h4 : addr = 0xD5E4
    · subst h4
      by_cases e : s.Top_Bank_Register = (b : Int)
      · rw [put_top_eq s b e]
        exact ⟨hsdx, htop⟩
      · rw [put_top_ne s b e]
        refine ⟨hsdx, ?_⟩
        obtain ⟨t1, t2, -, -⟩ := byte_top b hb
        dsimp only
        rw [int_lor_one]
        split_ifs <;> omega
    · obtain ⟨f1, -, f3, -, -⟩ := put_other_banks s addr b h1 h4
      unfold RegRange
      rw [f1, f3]
      exact ⟨hsdx, htop⟩

/-- Every reachable state has its bank registers in range. -/
theorem Reachable.regRange {s : State} (h : Reachable s) : RegRange s := by
  induction h with
  | init => exact RegRange_initial
  | coldStart _ _ => exact RegRange_ColdStart _
  | putByte addr byte _ hb _ ih => exact RegRange_put _ addr byte hb ih

/-! ## The bank a write to 0xD5E1 leaves, and what is read back -/

/-- With the registers in range, a write of a byte to 0xD5E1 leaves the
decoded bank in `SDX_Bank_Register`, whether the guard of line 138 passes or
not. -/
theorem put_sdx_bank (s : State) (hr : RegRange s) (b : Nat) (hb : b < 256) :
    (SIDE2_D5PutByte s 0xD5E1 b).SDX_Bank_Register
      = (if b &&& 0x80 ≠ 0 then -1 else ((b &&& 0x3f : Nat) : Int)) := by
  by_cases e : s.SDX_Bank_Register = (b : Int)
  · have hr1 := hr.1
    have h64 : b < 64 := by omega
    have h7 : ¬(b &&& 0x80 ≠ 0) := fun h => by
      have := (byte_bit7 b hb).mp h
      omega
    rw [put_sdx_eq s b e, if_neg h7, (byte_low6 b hb).2.1 h64]
    exact e
  · rw [put_sdx_ne s b e]

/-- The 0xD5E1 branch of `SIDE2_D5GetByte`. -/
theorem get_sdx_unfold (ad : Adapters) (s : State) (f : Int) :
    SIDE2_D5GetByte ad s 0xD5E1 f = toUBYTE s.SDX_Bank_Register := rfl

/-- With the registers in range, the byte read at 0xD5E1 after a write of `b`
there is 0xFF when bit 7 of `b` is set and `b & 0x3F` otherwise. -/
theorem readback_sdx (ad : Adapters) (s : State) (hr : RegRange s) (b : Nat) (hb : b < 256)
    (f : Int) :
    SIDE2_D5GetByte ad (SIDE2_D5PutByte s 0xD5E1 b) 0xD5E1 f
      = (if b &&& 0x80 ≠ 0 then 0xFF else b &&& 0x3f) := by
  rw [get_sdx_unfold, put_sdx_bank s hr b hb]
  have hl := (byte_low6 b hb).1
  unfold toUBYTE
  split_ifs
  · rfl
  · omega

/-! ## Claims on the bank registers -/

/-- C1: in every reachable state, writing a byte with bit 7 set to 0xD5E1
leaves `SDX_Bank_Register` at -1 (disabled), whatever its low six bits are. -/
theorem C1_sdx_bit7_disables (s : State) (hs : Reachable s) (b : Nat) (hb : b < 256)
    (h7 : b &&& 0x80 ≠ 0) :
    (SIDE2_D5PutByte s 0xD5E1 b).SDX_Bank_Register = -1 := by
  have hr := hs.regRange.1
  have h128 : 128 ≤ b := (byte_bit7 b hb).mp h7
  have ne : s.SDX_Bank_Register ≠ (b : Int) := by omega
  rw [put_sdx_ne s b ne]
  dsimp only
  rw [if_pos h7]

/-- C1 at a concrete input: 0xBF written after a cold start. -/
theorem C1_witness :
    Reachable (SIDE2_ColdStart initial) ∧ 0xBF < 256 ∧ 0xBF &&& 0x80 ≠ 0
    ∧ (SIDE2_D5PutByte (SIDE2_ColdStart initial) 0xD5E1 0xBF).SDX_Bank_Register = -1 :=
  ⟨Reachable.coldStart Reachable.init, by decide, by decide,
    C1_sdx_bit7_disables (SIDE2_ColdStart initial) (Reachable.coldStart Reachable.init) 0xBF
      (by decide) (by decide)⟩

/-- C2: in every reachable state, writing a byte with bit 6 set to 0xD5E4
leaves `Top_Right_Enable` true and `Top_Bank_Register` with low bit 1, also
when `(b & 0x3F) ^ 0x20` is even. -/
theorem C2_top_bit6_forces_lsb (s : State) (hs : Reachable s) (b : Nat) (hb : b < 256)
    (h6 : b &&& 0x40 ≠ 0) :
    (SIDE2_D5PutByte s 0xD5E4 b).Top_Right_Enable = TRUE
    ∧ (SIDE2_D5PutByte s 0xD5E4 b).Top_Bank_Register % 2 = 1 := by
  have hr := hs.regRange.2
  have h64 : 64 ≤ b := byte_bit6_ge b hb h6
  have ne : s.Top_Bank_Register ≠ (b : Int) := by omega
  have hre : cBool (b &&& 0x40 != 0) = 1 := by simp [cBool, h6]
  obtain ⟨-, -, t3, -⟩ := byte_top b hb
  rw [put_top_ne s b ne]
  dsimp only
  rw [hre, int_lor_one]
  refine ⟨rfl, ?_⟩
  rw [if_pos (by decide)]
  omega

/-- C2 at a concrete input: 0x40, whose decoded bank 0x20 is even, written in
the initial state. -/
theorem C2_witness :
    Reachable initial ∧ 0x40 < 256 ∧ 0x40 &&& 0x40 ≠ 0 ∧ ((0x40 &&& 0x3f) ^^^ 0x20) % 2 = 0
    ∧ (SIDE2_D5PutByte initial 0xD5E4 0x40).Top_Right_Enable = TRUE
    ∧ (SIDE2_D5PutByte initial 0xD5E4 0x40).Top_Bank_Register % 2 = 1 :=
  ⟨Reachable.init, by decide, by decide, by decide,
    C2_top_bit6_forces_lsb initial Reachable.init 0x40 (by decide) (by decide)⟩

/-- C3: a bank register write is idempotent: from every state and for every
value, writing it to 0xD5E1 twice leaves the state the first write left, and
likewise for 0xD5E4. -/
theorem C3_bank_write_idempotent (s : State) (b : Nat) :
    SIDE2_D5PutByte (SIDE2_D5PutByte s 0xD5E1 b) 0xD5E1 b = SIDE2_D5PutByte s 0xD5E1 b
    ∧ SIDE2_D5PutByte (SIDE2_D5PutByte s 0xD5E4 b) 0xD5E4 b = SIDE2_D5PutByte s 0xD5E4 b := by
  constructor
  · by_cases e : s.SDX_Bank_Register = (b : Int)
    · rw [put_sdx_eq s b e, put_sdx_eq s b e]
    · rw [put_sdx_ne s b e]
      generalize hs1 : ({ s with
        SDX_Bank_Register := (if b &&& 0x80 ≠ 0 then -1 else ((b &&& 0x3f : Nat) : Int)),
        Top_Enable := cNot ((b &&& 0x40 : Nat) : Int) } : State) = s1
      by_cases e1 : s1.SDX_Bank_Register = (b : Int)
      · exact put_sdx_eq s1 b e1
      · rw [put_sdx_ne s1 b e1, ← hs1]
  · by_cases e : s.Top_Bank_Register = (b : Int)
    · rw [put_top_eq s b e, put_top_eq s b e]
    · rw [put_top_ne s b e]
      generalize hs1 : ({ s with
        Top_Bank_Register :=
          (if cBool (b &&& 0x40 != 0) ≠ 0
           then Int.lor (((b &&& 0x3f) ^^^ 0x20 : Nat) : Int) 0x01
           else (((b &&& 0x3f) ^^^ 0x20 : Nat) : Int)),
        Top_Left_Enable := cBool (b &&& 0x80 == 0),
        Top_Right_Enable := cBool (b &&& 0x40 != 0) } : State) = s1
      by_cases e1 : s1.Top_Bank_Register = (b : Int)
      · exact put_top_eq s1 b e1
      · rw [put_top_ne s1 b e1, ← hs1]

/-- C4: from every prior state `SIDE2_ColdStart` leaves `SDX_Bank_Register`
at 0 with `Top_Enable` true, `Top_Bank_Register` at 0x20 with
`Top_Left_Enable` true and `Top_Right_Enable` false, `IDE_Enabled` and
`IDE_Reset` true, and `IDE_Removed` equal to `!Block_Device`, the attached
flag itself being untouched. -/
theorem C4_coldstart_state (s : State) :
    (SIDE2_ColdStart s).SDX_Bank_Register = 0
    ∧ (SIDE2_ColdStart s).Top_Enable = TRUE
    ∧ (SIDE2_ColdStart s).Top_Bank_Register = 0x20
    ∧ (SIDE2_ColdStart s).Top_Left_Enable = TRUE
    ∧ (SIDE2_ColdStart s).Top_Right_Enable = FALSE
    ∧ (SIDE2_ColdStart s).IDE_Enabled = TRUE
    ∧ (SIDE2_ColdStart s).IDE_Reset = TRUE
    ∧ (SIDE2_ColdStart s).IDE_Removed = cNot (SIDE2_ColdStart s).Block_Device
    ∧ (SIDE2_ColdStart s).Block_Device = s.Block_Device := by
  rw [SIDE2_ColdStart_eq]
  exact ⟨rfl, rfl, rfl, rfl, rfl, rfl, rfl, rfl, rfl⟩

/-! ## Claims on the register decoder -/

/-- C5: in every state and for every value of `no_side_effects`, a read of
an address outside 0xD5E1, 0xD5E2, 0xD5E4, 0xD5F0-0xD5F9 and 0xD5FC-0xD5FF
returns exactly 0xFF. -/
theorem C5_unhandled_read_fill (ad : Adapters) (s : State) (addr : Nat) (no_side_effects : Int)
    (h : ¬(addr = 0xD5E1 ∨ addr = 0xD5E2 ∨ addr = 0xD5E4
          ∨ (0xD5F0 ≤ addr ∧ addr ≤ 0xD5F9) ∨ (0xD5FC ≤ addr ∧ addr ≤ 0xD5FF))) :
    SIDE2_D5GetByte ad s addr no_side_effects = 0xFF := by
  have n0 : addr ≠ 0xD5F8 := by omega
  have n1 : addr ≠ 0xD5E1 := by omega
  have n2 : addr ≠ 0xD5E2 := by omega
  have n3 : addr ≠ 0xD5E4 := by omega
  have n4 : ¬(addr = 0xD5F0 ∨ addr = 0xD5F1 ∨ addr = 0xD5F2 ∨ addr = 0xD5F3
          ∨ addr = 0xD5F4 ∨ addr = 0xD5F5 ∨ addr = 0xD5F6 ∨ addr = 0xD5F7) := by omega
  have n5 : addr ≠ 0xD5F9 := by omega
  have n6 : addr ≠ 0xD5FC := by omega
  have n7 : addr ≠ 0xD5FD := by omega
  have n8 : addr ≠ 0xD5FE := by omega
  have n9 : addr ≠ 0xD5FF := by omega
  unfold SIDE2_D5GetByte
  rw [if_neg n0]
  dsimp only
  rw [if_neg n1, if_neg n2, if_neg n3, if_neg n4, if_neg n5, if_neg n6, if_neg n7, if_neg n8,
    if_neg n9]
  rfl

/-- C5 at concrete inputs: the unhandled addresses of the I/O page and one
address below it. -/
theorem C5_witness :
    SIDE2_D5GetByte ⟨1, fun a _ => a % 256⟩ initial 0xD5E3 0 = 0xFF
    ∧ SIDE2_D5GetByte ⟨1, fun a _ => a % 256⟩ initial 0xD5E5 1 = 0xFF
    ∧ SIDE2_D5GetByte ⟨1, fun a _ => a % 256⟩ initial 0xD5EF 0 = 0xFF
    ∧ SIDE2_D5GetByte ⟨1, fun a _ => a % 256⟩ initial 0xD5FA 1 = 0xFF
    ∧ SIDE2_D5GetByte ⟨1, fun a _ => a % 256⟩ initial 0xD5FB 0 = 0xFF
    ∧ SIDE2_D5GetByte ⟨1, fun a _ => a % 256⟩ initial 0xD500 0 = 0xFF :=
  ⟨C5_unhandled_read_fill _ initial 0xD5E3 0 (by decide),
   C5_unhandled_read_fill _ initial 0xD5E5 1 (by decide),
   C5_unhandled_read_fill _ initial 0xD5EF 0 (by decide),
   C5_unhandled_read_fill _ initial 0xD5FA 1 (by decide),
   C5_unhandled_read_fill _ initial 0xD5FB 0 (by decide),
   C5_unhandled_read_fill _ initial 0xD500 0 (by decide)⟩

/-- The 0xD5F9 branch of `SIDE2_D5PutByte`. -/
theorem put_strobe_unfold (s : State) (b : Nat) :
    SIDE2_D5PutByte s 0xD5F9 b =
      { (if s.Block_Device ≠ 0 then { s with IDE_Removed := FALSE } else s) with
        IDE_Enabled := cNot ((b &&& 0x80 : Nat) : Int) } := rfl

/-- C6: for every value written to 0xD5F9, `IDE_Removed` is unchanged when
`Block_Device` is false and is false after the write when `Block_Device` is
true. -/
theorem C6_strobe_clear (s : State) (b : Nat) :
    (s.Block_Device = 0 → (SIDE2_D5PutByte s 0xD5F9 b).IDE_Removed = s.IDE_Removed)
    ∧ (s.Block_Device ≠ 0 → (SIDE2_D5PutByte s 0xD5F9 b).IDE_Removed = FALSE) := by
  rw [put_strobe_unfold]
  constructor
  · intro h0
    rw [if_neg (not_not.mpr h0)]
  · intro h1
    rw [if_pos h1]

/-- C6 at concrete inputs: the strobe with no device attached and with one
attached. -/
theorem C6_witness :
    (SIDE2_D5PutByte initial 0xD5F9 0x00).IDE_Removed = initial.IDE_Removed
    ∧ (SIDE2_D5PutByte { initial with Block_Device := 1 } 0xD5F9 0x00).IDE_Removed = FALSE :=
  ⟨(C6_strobe_clear initial 0x00).1 rfl,
   (C6_strobe_clear { initial with Block_Device := 1 } 0x00).2 (by decide)⟩

/-- C7 (the code at the failing input): after a cold start, writing 0x00 to
0xD5E1 reads back 0x00, but writing 0x81 reads back 0xFF, the decoded bank -1
as a byte, and not the 0x81 that was written. -/
theorem C7_readback_is_decoded (ad : Adapters) (f : Int) :
    SIDE2_D5GetByte ad (SIDE2_D5PutByte (SIDE2_ColdStart initial) 0xD5E1 0x00) 0xD5E1 f = 0x00
    ∧ SIDE2_D5GetByte ad
        (SIDE2_D5PutByte (SIDE2_D5PutByte (SIDE2_ColdStart initial) 0xD5E1 0x00) 0xD5E1 0x81)
        0xD5E1 f = 0xFF
    ∧ SIDE2_D5GetByte ad
        (SIDE2_D5PutByte (SIDE2_D5PutByte (SIDE2_ColdStart initial) 0xD5E1 0x00) 0xD5E1 0x81)
        0xD5E1 f ≠ 0x81 :=
  ⟨rfl, rfl, fun h => absurd (h.symm.trans rfl : (0x81 : Nat) = 0xFF) (by decide)⟩

/-- C8 (as stated, refuted): after cold start, a write of 0x00 and a write of
0x81 to 0xD5E1, the flag stored by `Set_SDX_Bank` is not false. -/
theorem C8_counterexample :
    ¬((SIDE2_D5PutByte (SIDE2_D5PutByte (SIDE2_ColdStart initial) 0xD5E1 0x00) 0xD5E1 0x81).SDX_Bank_Register = -1
      ∧ (SIDE2_D5PutByte (SIDE2_D5PutByte (SIDE2_ColdStart initial) 0xD5E1 0x00) 0xD5E1 0x81).Top_Enable = FALSE) := by
  decide

/-- C8 (amended): from every prior state, after cold start, a write of 0x00
and a write of 0x81 to 0xD5E1, `SDX_Bank_Register` is -1 and the flag stored
by `Set_SDX_Bank` is true, bit 6 of 0x81 being clear. -/
theorem C8_scenario (s : State) :
    (SIDE2_D5PutByte (SIDE2_D5PutByte (SIDE2_ColdStart s) 0xD5E1 0x00) 0xD5E1 0x81).SDX_Bank_Register = -1
    ∧ (SIDE2_D5PutByte (SIDE2_D5PutByte (SIDE2_ColdStart s) 0xD5E1 0x00) 0xD5E1 0x81).Top_Enable = TRUE := by
  have h0 : (SIDE2_ColdStart s).SDX_Bank_Register = ((0x00 : Nat) : Int) := by
    rw [SIDE2_ColdStart_eq]
    rfl
  rw [put_sdx_eq _ 0x00 h0]
  have h1 : (SIDE2_ColdStart s).SDX_Bank_Register ≠ ((0x81 : Nat) : Int) := by
    rw [h0]
    decide
  rw [put_sdx_ne _ 0x81 h1]
  exact ⟨rfl, rfl⟩

/-! ## Postconditions of a bank register write -/

/-- C9 (as stated, refuted): in the initial state, which holds 0 in
`SDX_Bank_Register` and false in `Top_Enable`, a write of 0x00 to 0xD5E1 is
skipped by the guard of line 138 and `Top_Enable` stays false, not the
inverse of bit 6 of 0x00. -/
theorem C9_counterexample :
    Reachable initial ∧ 0x00 < 256
    ∧ (SIDE2_D5PutByte initial 0xD5E1 0x00).Top_Enable = FALSE
    ∧ cNot ((0x00 &&& 0x40 : Nat) : Int) = TRUE
    ∧ ¬((SIDE2_D5PutByte initial 0xD5E1 0x00).SDX_Bank_Register
          = (if 0x00 &&& 0x80 ≠ 0 then -1 else ((0x00 &&& 0x3f : Nat) : Int))
        ∧ (SIDE2_D5PutByte initial 0xD5E1 0x00).Top_Enable
          = cNot ((0x00 &&& 0x40 : Nat) : Int)) :=
  ⟨Reachable.init, by decide, by decide, by decide, by decide⟩

/-- C9 (amended): in every reachable state and for every byte `b`, after a
write of `b` to 0xD5E1 `SDX_Bank_Register` is -1 if bit 7 of `b` is set and
`b & 0x3F` otherwise; and when `b` differs from the value `SDX_Bank_Register`
held before the write, `Top_Enable` is the inverse of bit 6 of `b`. -/
theorem C9_sdx_postcondition (s : State) (hs : Reachable s) (b : Nat) (hb : b < 256) :
    (SIDE2_D5PutByte s 0xD5E1 b).SDX_Bank_Register
        = (if b &&& 0x80 ≠ 0 then -1 else ((b &&& 0x3f : Nat) : Int))
    ∧ (s.SDX_Bank_Register ≠ (b : Int) →
        (SIDE2_D5PutByte s 0xD5E1 b).Top_Enable = cNot ((b &&& 0x40 : Nat) : Int)) := by
  refine ⟨put_sdx_bank s hs.regRange b hb, fun ne => ?_⟩
  rw [put_sdx_ne s b ne]

/-- C9 (amended) at a concrete input: 0x45 written after a cold start. -/
theorem C9_witness :
    Reachable (SIDE2_ColdStart initial) ∧ 0x45 < 256
    ∧ (SIDE2_D5PutByte (SIDE2_ColdStart initial) 0xD5E1 0x45).SDX_Bank_Register = 0x05
    ∧ (SIDE2_ColdStart initial).SDX_Bank_Register ≠ 0x45
    ∧ (SIDE2_D5PutByte (SIDE2_ColdStart initial) 0xD5E1 0x45).Top_Enable = FALSE :=
  ⟨Reachable.coldStart Reachable.init, by decide,
   (C9_sdx_postcondition (SIDE2_ColdStart initial) (Reachable.coldStart Reachable.init) 0x45
      (by decide)).1,
   by decide,
   (C9_sdx_postcondition (SIDE2_ColdStart initial) (Reachable.coldStart Reachable.init) 0x45
      (by decide)).2 (by decide)⟩

/-- C10 (as stated, refuted): in the initial state, which holds 0 in
`Top_Bank_Register` and false in `Top_Left_Enable`, a write of 0x00 to 0xD5E4
is skipped by the guard of line 149: the bank stays 0, not
`(0x00 & 0x3F) ^ 0x20 = 0x20`, and `Top_Left_Enable` stays false although
bit 7 of 0x00 is clear. -/
theorem C10_counterexample :
    Reachable initial ∧ 0x00 < 256
    ∧ (SIDE2_D5PutByte initial 0xD5E4 0x00).Top_Bank_Register = 0
    ∧ (SIDE2_D5PutByte initial 0xD5E4 0x00).Top_Left_Enable = FALSE
    ∧ ¬((SIDE2_D5PutByte initial 0xD5E4 0x00).Top_Bank_Register
          = (if 0x00 &&& 0x40 ≠ 0 then ((((0x00 &&& 0x3f) ^^^ 0x20) ||| 1 : Nat) : Int)
             else (((0x00 &&& 0x3f) ^^^ 0x20 : Nat) : Int))
        ∧ (SIDE2_D5PutByte initial 0xD5E4 0x00).Top_Left_Enable
          = (if 0x00 &&& 0x80 = 0 then TRUE else FALSE)
        ∧ (SIDE2_D5PutByte initial 0xD5E4 0x00).Top_Right_Enable
          = (if 0x00 &&& 0x40 ≠ 0 then TRUE else FALSE)) :=
  ⟨Reachable.init, by decide, by decide, by decide, by decide⟩

/-- C10 (amended): in every state and for every byte `b` that differs from
the value `Top_Bank_Register` held before the write, after a write of `b` to
0xD5E4 `Top_Bank_Register` is `(b & 0x3F) ^ 0x20` with its low bit forced to
1 when bit 6 of `b` is set, `Top_Left_Enable` is (bit 7 of `b` == 0) and
`Top_Right_Enable` is (bit 6 of `b` != 0). -/
theorem C10_top_postcondition (s : State) (b : Nat) (h : s.Top_Bank_Register ≠ (b : Int)) :
    (SIDE2_D5PutByte s 0xD5E4 b).Top_Bank_Register
        = (if b &&& 0x40 ≠ 0 then ((((b &&& 0x3f) ^^^ 0x20) ||| 1 : Nat) : Int)
           else (((b &&& 0x3f) ^^^ 0x20 : Nat) : Int))
    ∧ (SIDE2_D5PutByte s 0xD5E4 b).Top_Left_Enable = (if b &&& 0x80 = 0 then TRUE else FALSE)
    ∧ (SIDE2_D5PutByte s 0xD5E4 b).Top_Right_Enable
        = (if b &&& 0x40 ≠ 0 then TRUE else FALSE) := by
  rw [put_top_ne s b h]
  dsimp only
  rw [int_lor_one]
  by_cases h6 : b &&& 0x40 = 0 <;> by_cases h7 : b &&& 0x80 = 0 <;>
    simp [cBool, TRUE, FALSE, h6, h7]

/-- C10 (amended) at a concrete input: 0x42 written after a cold start. -/
theorem C10_witness :
    (SIDE2_ColdStart initial).Top_Bank_Register ≠ 0x42
    ∧ (SIDE2_D5PutByte (SIDE2_ColdStart initial) 0xD5E4 0x42).Top_Bank_Register = 0x23
    ∧ (SIDE2_D5PutByte (SIDE2_ColdStart initial) 0xD5E4 0x42).Top_Left_Enable = TRUE
    ∧ (SIDE2_D5PutByte (SIDE2_ColdStart initial) 0xD5E4 0x42).Top_Right_Enable = TRUE :=
  ⟨by decide, C10_top_postcondition (SIDE2_ColdStart initial) 0x42 (by decide)⟩

/-! ## Frame of a register write -/

/-- The 0xD5E2 branch of `SIDE2_D5PutByte`. -/
theorem put_rtc_unfold (s : State) (b : Nat) :
    SIDE2_D5PutByte s 0xD5E2 b =
      { s with calls := s.calls ++ [AdapterCall.CDS1305_WriteState
          (cBool (b &&& 1 != 0)) (cNot ((b &&& 2 : Nat) : Int)) (cBool (b &&& 4 != 0))] } := rfl

/-- The branch of `SIDE2_D5PutByte` for 0xD5F8-0xD5FB. -/
theorem put_reset_unfold (s : State) (addr b : Nat) (h : 0xD5F8 ≤ addr ∧ addr ≤ 0xD5FB) :
    SIDE2_D5PutByte s addr b =
      { (if addr = 0xD5F9 then
          (if s.Block_Device ≠ 0 then { s with IDE_Removed := FALSE } else s)
         else s) with
        IDE_Enabled := cNot ((b &&& 0x80 : Nat) : Int) } := by
  have n1 : addr ≠ 0xD5E1 := by omega
  have n2 : addr ≠ 0xD5E2 := by omega
  have n3 : addr ≠ 0xD5E4 := by omega
  have n4 : ¬(addr = 0xD5F0 ∨ addr = 0xD5F1 ∨ addr = 0xD5F2 ∨ addr = 0xD5F3
          ∨ addr = 0xD5F4 ∨ addr = 0xD5F5 ∨ addr = 0xD5F6 ∨ addr = 0xD5F7) := by omega
  have p5 : addr = 0xD5F8 ∨ addr = 0xD5F9 ∨ addr = 0xD5FA ∨ addr = 0xD5FB := by omega
  unfold SIDE2_D5PutByte
  rw [if_neg n1, if_neg n2, if_neg n3, if_neg n4, if_pos p5]

/-- The branch of `SIDE2_D5PutByte` for 0xD5F0-0xD5F7. -/
theorem put_ide_unfold (s : State) (addr b : Nat) (h : 0xD5F0 ≤ addr ∧ addr ≤ 0xD5F7) :
    SIDE2_D5PutByte s addr b =
      { s with calls := s.calls ++ [AdapterCall.IDE_PutByte addr b] } := by
  have n1 : addr ≠ 0xD5E1 := by omega
  have n2 : addr ≠ 0xD5E2 := by omega
  have n3 : addr ≠ 0xD5E4 := by omega
  have p4 : addr = 0xD5F0 ∨ addr = 0xD5F1 ∨ addr = 0xD5F2 ∨ addr = 0xD5F3
          ∨ addr = 0xD5F4 ∨ addr = 0xD5F5 ∨ addr = 0xD5F6 ∨ addr = 0xD5F7 := by omega
  unfold SIDE2_D5PutByte
  rw [if_neg n1, if_neg n2, if_neg n3, if_pos p4]

/-- The default branch of `SIDE2_D5PutByte`. -/
theorem put_default_unfold (s : State) (addr b : Nat)
    (h : ¬(addr = 0xD5E1 ∨ addr = 0xD5E2 ∨ addr = 0xD5E4 ∨ (0xD5F0 ≤ addr ∧ addr ≤ 0xD5FB))) :
    SIDE2_D5PutByte s addr b = s := by
  have n1 : addr ≠ 0xD5E1 := by omega
  have n2 : addr ≠ 0xD5E2 := by omega
  have n3 : addr ≠ 0xD5E4 := by omega
  have n4 : ¬(addr = 0xD5F0 ∨ addr = 0xD5F1 ∨ addr = 0xD5F2 ∨ addr = 0xD5F3
          ∨ addr = 0xD5F4 ∨ addr = 0xD5F5 ∨ addr = 0xD5F6 ∨ addr = 0xD5F7) := by omega
  have n5 : ¬(addr = 0xD5F8 ∨ addr = 0xD5F9 ∨ addr = 0xD5FA ∨ addr = 0xD5FB) := by omega
  unfold SIDE2_D5PutByte
  rw [if_neg n1, if_neg n2, if_neg n3, if_neg n4, if_neg n5]

/-- What a register write does to the storage flags that no bank register
write touches: `Block_Device`, `SDX_Enabled` and `IDE_Reset` are kept, and
`IDE_Removed` is cleared by a write to 0xD5F9 with a device attached and kept
otherwise. -/
theorem put_storage_frame (s : State) (addr b : Nat) :
    (SIDE2_D5PutByte s addr b).Block_Device = s.Block_Device
    ∧ (SIDE2_D5PutByte s addr b).SDX_Enabled = s.SDX_Enabled
    ∧ (SIDE2_D5PutByte s addr b).IDE_Reset = s.IDE_Reset
    ∧ (SIDE2_D5PutByte s addr b).IDE_Removed
        = (if addr = 0xD5F9 ∧ s.Block_Device ≠ 0 then FALSE else s.IDE_Removed) := by
  by_cases h1 : addr = 0xD5E1
  · subst h1
    rw [if_neg (fun h => absurd h.1 (by decide))]
    by_cases e : s.SDX_Bank_Register = (b : Int)
    · rw [put_sdx_eq s b e]
      exact ⟨rfl, rfl, rfl, rfl⟩
    · rw [put_sdx_ne s b e]
      exact ⟨rfl, rfl, rfl, rfl⟩
  by_cases h2 : addr = 0xD5E2
  · subst h2
    rw [if_neg (fun h => absurd h.1 (by decide)), put_rtc_unfold]
    exact ⟨rfl, rfl, rfl, rfl⟩
  by_cases h4 : addr = 0xD5E4
  · subst h4
    rw [if_neg (fun h => absurd h.1 (by decide))]
    by_cases e : s.Top_Bank_Register = (b : Int)
    · rw [put_top_eq s b e]
      exact ⟨rfl, rfl, rfl, rfl⟩
    · rw [put_top_ne s b e]
      exact ⟨rfl, rfl, rfl, rfl⟩
  by_cases h5 : 0xD5F0 ≤ addr ∧ addr ≤ 0xD5F7
  · rw [put_ide_unfold s addr b h5, if_neg (fun h => by omega)]
    exact ⟨rfl, rfl, rfl, rfl⟩
  by_cases h6 : 0xD5F8 ≤ addr ∧ addr ≤ 0xD5FB
  · rw [put_reset_unfold s addr b h6]
    by_cases h9 : addr = 0xD5F9
    · by_cases hbd : s.Block_Device ≠ 0
      · rw [if_pos h9, if_pos hbd, if_pos ⟨h9, hbd⟩]
        exact ⟨rfl, rfl, rfl, rfl⟩
      · rw [if_pos h9, if_neg hbd, if_neg (fun h => hbd h.2)]
        exact ⟨rfl, rfl, rfl, rfl⟩
    · rw [if_neg h9, if_neg (fun h => h9 h.1)]
      exact ⟨rfl, rfl, rfl, rfl⟩
  · rw [put_default_unfold s addr b (by omega), if_neg (fun h => by omega)]
    exact ⟨rfl, rfl, rfl, rfl⟩

/-- Reads leave the state, so the two notions of reachable state agree. -/
theorem ReachableAll.reachable {s : State} (h : ReachableAll s) : Reachable s := by
  induction h with
  | init => exact Reachable.init
  | coldStart _ ih => exact Reachable.coldStart ih
  | putByte addr byte ha hb _ ih => exact Reachable.putByte addr byte ha hb ih
  | getByte ad addr f _ _ ih => exact ih

/-! ## Claims on the storage registers -/

/-- The branch of `SIDE2_D5GetByte` for 0xD5F0-0xD5F7: the address goes to
`IDE_GetByte` as it is, the flag passed is the constant `FALSE`. -/
theorem get_ide_unfold (ad : Adapters) (s : State) (addr : Nat) (f : Int)
    (h : 0xD5F0 ≤ addr ∧ addr ≤ 0xD5F7) :
    SIDE2_D5GetByte ad s addr f = toUBYTE (ad.IDE_GetByte addr FALSE : Int) := by
  have n0 : addr ≠ 0xD5F8 := by omega
  have n1 : addr ≠ 0xD5E1 := by omega
  have n2 : addr ≠ 0xD5E2 := by omega
  have n3 : addr ≠ 0xD5E4 := by omega
  have p4 : addr = 0xD5F0 ∨ addr = 0xD5F1 ∨ addr = 0xD5F2 ∨ addr = 0xD5F3
          ∨ addr = 0xD5F4 ∨ addr = 0xD5F5 ∨ addr = 0xD5F6 ∨ addr = 0xD5F7 := by omega
  unfold SIDE2_D5GetByte
  rw [if_neg n0]
  dsimp only
  rw [if_neg n1, if_neg n2, if_neg n3, if_pos p4]

/-- C11 (the code at the failing input): with an adapter that answers 0xAA
to a read with side effects and 0x55 to one without, a read of 0xD5F0 with
`no_side_effects` true returns 0xAA, the answer for the flag `FALSE`, and not
the adapter's answer 0x55 for the flag that was given. -/
theorem C11_flag_not_forwarded :
    SIDE2_D5GetByte ⟨0, fun _ f => if f = 0 then 0xAA else 0x55⟩ initial 0xD5F0 TRUE = 0xAA
    ∧ (if TRUE = 0 then 0xAA else 0x55 : Nat) = 0x55
    ∧ SIDE2_D5GetByte ⟨0, fun _ f => if f = 0 then 0xAA else 0x55⟩ initial 0xD5F0 TRUE
        ≠ (if TRUE = 0 then 0xAA else 0x55 : Nat) := by
  decide

/-- With no device attached the removed flag is set in every reachable state. -/
theorem ReachableAll.removed {s : State} (h : ReachableAll s) :
    s.Block_Device = 0 → s.IDE_Removed = TRUE := by
  induction h with
  | init => exact fun _ => rfl
  | @coldStart s _ _ =>
    rw [SIDE2_ColdStart_eq]
    intro h0
    show cNot s.Block_Device = TRUE
    have h0 : s.Block_Device = 0 := h0
    rw [h0]
    rfl
  | @putByte s addr byte _ _ _ ih =>
    obtain ⟨f1, -, -, f4⟩ := put_storage_frame s addr byte
    intro h0
    rw [f1] at h0
    rw [f4, if_neg (fun h => h.2 h0)]
    exact ih h0
  | getByte ad addr f _ _ ih => exact ih

/-- C12: with no device attached (`Block_Device` false) `IDE_Removed` is true
in every state reachable by cold starts, register writes and register reads;
and from every state, a register write that takes `IDE_Removed` from true to
false is a write to 0xD5F9 with a device attached. -/
theorem C12_removed_invariant (s : State) :
    (ReachableAll s → s.Block_Device = 0 → s.IDE_Removed = TRUE)
    ∧ (∀ addr b : Nat, s.IDE_Removed ≠ 0 → (SIDE2_D5PutByte s addr b).IDE_Removed = 0 →
        addr = 0xD5F9 ∧ s.Block_Device ≠ 0) := by
  refine ⟨fun h => h.removed, fun addr b ht hf => ?_⟩
  rw [(put_storage_frame s addr b).2.2.2] at hf
  by_cases c : addr = 0xD5F9 ∧ s.Block_Device ≠ 0
  · exact c
  · rw [if_neg c] at hf
    exact absurd hf ht

/-- C12 at concrete inputs: a state reached by a cold start, a strobe write
and a read with no device attached, and the strobe write with a device
attached. -/
theorem C12_witness :
    (SIDE2_D5PutByte (SIDE2_ColdStart initial) 0xD5F9 0x00).Block_Device = 0
    ∧ (SIDE2_D5PutByte (SIDE2_ColdStart initial) 0xD5F9 0x00).IDE_Removed = TRUE
    ∧ ({ initial with Block_Device := 1 } : State).IDE_Removed ≠ 0
    ∧ (SIDE2_D5PutByte { initial with Block_Device := 1 } 0xD5F9 0x00).IDE_Removed = 0
    ∧ ((0xD5F9 : Nat) = 0xD5F9 ∧ ({ initial with Block_Device := 1 } : State).Block_Device ≠ 0) :=
  ⟨by decide,
   (C12_removed_invariant (SIDE2_D5PutByte (SIDE2_ColdStart initial) 0xD5F9 0x00)).1
     (ReachableAll.getByte ⟨0, fun _ _ => 0⟩ 0xD5F9 0 (by decide)
       (ReachableAll.putByte 0xD5F9 0x00 (by decide) (by decide)
         (ReachableAll.coldStart ReachableAll.init)))
     (by decide),
   by decide, by decide,
   (C12_removed_invariant { initial with Block_Device := 1 }).2 0xD5F9 0x00
     (by decide) (by decide)⟩

/-- C13: in every state reachable by cold starts and register writes,
whenever `Top_Right_Enable` is true the low bit of `Top_Bank_Register` is 1. -/
theorem C13_top_lsb_invariant (s : State) (hs : Reachable s) :
    s.Top_Right_Enable ≠ 0 → s.Top_Bank_Register % 2 = 1 := by
  induction hs with
  | init => exact fun h => absurd rfl h
  | @coldStart s _ _ =>
    rw [SIDE2_ColdStart_eq]
    exact fun h => absurd rfl h
  | @putByte s addr byte _ hb _ ih =>
    by_cases h4 : addr = 0xD5E4
    · subst h4
      by_cases e : s.Top_Bank_Register = (byte : Int)
      · rw [put_top_eq s byte e]
        exact ih
      · rw [put_top_ne s byte e]
        dsimp only
        intro hre
        obtain ⟨-, -, t3, -⟩ := byte_top byte hb
        rw [if_pos hre, int_lor_one]
        omega
    · by_cases h1 : addr = 0xD5E1
      · subst h1
        by_cases e : s.SDX_Bank_Register = (byte : Int)
        · rw [put_sdx_eq s byte e]
          exact ih
        · rw [put_sdx_ne s byte e]
          exact ih
      · obtain ⟨-, -, f3, -, f5⟩ := put_other_banks s addr byte h1 h4
        rw [f3, f5]
        exact ih

/-- C13 at a concrete input: after a cold start, 0x40 written to 0xD5E4
enables the right window and leaves the odd bank 0x21. -/
theorem C13_witness :
    Reachable (SIDE2_D5PutByte (SIDE2_ColdStart initial) 0xD5E4 0x40)
    ∧ (SIDE2_D5PutByte (SIDE2_ColdStart initial) 0xD5E4 0x40).Top_Right_Enable ≠ 0
    ∧ (SIDE2_D5PutByte (SIDE2_ColdStart initial) 0xD5E4 0x40).Top_Bank_Register % 2 = 1 :=
  ⟨Reachable.putByte 0xD5E4 0x40 (by decide) (by decide) (Reachable.coldStart Reachable.init),
   by decide,
   C13_top_lsb_invariant _
     (Reachable.putByte 0xD5E4 0x40 (by decide) (by decide) (Reachable.coldStart Reachable.init))
     (by decide)⟩

/-- C14: after a write of `b` to an address in 0xD5F8-0xD5FB `IDE_Enabled` is
(bit 7 of `b` == 0); `IDE_Removed` becomes false when the address is 0xD5F9
and a device is attached, and keeps its value in every other case, so for
0xD5F8, 0xD5FA and 0xD5FB. -/
theorem C14_reset_control_write (s : State) (addr b : Nat)
    (h : 0xD5F8 ≤ addr ∧ addr ≤ 0xD5FB) :
    (SIDE2_D5PutByte s addr b).IDE_Enabled = (if b &&& 0x80 = 0 then TRUE else FALSE)
    ∧ (addr = 0xD5F9 ∧ s.Block_Device ≠ 0 → (SIDE2_D5PutByte s addr b).IDE_Removed = FALSE)
    ∧ (¬(addr = 0xD5F9 ∧ s.Block_Device ≠ 0) →
        (SIDE2_D5PutByte s addr b).IDE_Removed = s.IDE_Removed) := by
  refine ⟨?_, fun c => ?_, fun c => ?_⟩
  · rw [put_reset_unfold s addr b h]
    show cNot ((b &&& 0x80 : Nat) : Int) = _
    unfold cNot TRUE FALSE
    by_cases h7 : b &&& 0x80 = 0
    · rw [if_pos h7, h7]
      rfl
    · rw [if_neg h7, if_neg (by exact_mod_cast h7)]
  · rw [(put_storage_frame s addr b).2.2.2, if_pos c]
  · rw [(put_storage_frame s addr b).2.2.2, if_neg c]

/-- C14 at concrete inputs: 0x80 written to 0xD5F8 with a device attached,
and 0x00 written to 0xD5F9 with a device attached. -/
theorem C14_witness :
    (SIDE2_D5PutByte { initial with Block_Device := 1 } 0xD5F8 0x80).IDE_Enabled = FALSE
    ∧ (SIDE2_D5PutByte { initial with Block_Device := 1 } 0xD5F8 0x80).IDE_Removed = TRUE
    ∧ (SIDE2_D5PutByte { initial with Block_Device := 1 } 0xD5F9 0x00).IDE_Enabled = TRUE
    ∧ (SIDE2_D5PutByte { initial with Block_Device := 1 } 0xD5F9 0x00).IDE_Removed = FALSE :=
  ⟨(C14_reset_control_write { initial with Block_Device := 1 } 0xD5F8 0x80 (by decide)).1,
   (C14_reset_control_write { initial with Block_Device := 1 } 0xD5F8 0x80 (by decide)).2.2
     (by decide),
   (C14_reset_control_write { initial with Block_Device := 1 } 0xD5F9 0x00 (by decide)).1,
   (C14_reset_control_write { initial with Block_Device := 1 } 0xD5F9 0x00 (by decide)).2.1
     (by decide)⟩

/-! ## Claims on the RTC register, the identification bytes and unhandled writes -/

/-- C15: a write of `b` to 0xD5E2 appends exactly one call
`CDS1305_WriteState(rtc, x, y, z)` with `x` = (bit 0 of `b` set), `y` = (bit 1
of `b` clear) and `z` = (bit 2 of `b` set) and changes nothing else; the state
it leaves is the one a write of `b & 0x07` leaves, so bits 3-7 have no
influence. -/
theorem C15_rtc_write (s : State) (b : Nat) :
    SIDE2_D5PutByte s 0xD5E2 b =
      { s with calls := s.calls ++ [AdapterCall.CDS1305_WriteState
          (if b &&& 1 ≠ 0 then TRUE else FALSE)
          (if b &&& 2 = 0 then TRUE else FALSE)
          (if b &&& 4 ≠ 0 then TRUE else FALSE)] }
    ∧ SIDE2_D5PutByte s 0xD5E2 (b &&& 0x07) = SIDE2_D5PutByte s 0xD5E2 b := by
  have e1 : (b &&& 0x07) &&& 1 = b &&& 1 := by
    rw [Nat.and_assoc]
    rfl
  have e2 : (b &&& 0x07) &&& 2 = b &&& 2 := by
    rw [Nat.and_assoc]
    rfl
  have e4 : (b &&& 0x07) &&& 4 = b &&& 4 := by
    rw [Nat.and_assoc]
    rfl
  constructor
  · rw [put_rtc_unfold]
    have x : cBool (b &&& 1 != 0) = (if b &&& 1 ≠ 0 then TRUE else FALSE) := by
      by_cases c : b &&& 1 = 0 <;> simp [cBool, TRUE, FALSE, c]
    have y : cNot ((b &&& 2 : Nat) : Int) = (if b &&& 2 = 0 then TRUE else FALSE) := by
      by_cases c : b &&& 2 = 0 <;> simp [cNot, TRUE, FALSE, c]
    have z : cBool (b &&& 4 != 0) = (if b &&& 4 ≠ 0 then TRUE else FALSE) := by
      by_cases c : b &&& 4 = 0 <;> simp [cBool, TRUE, FALSE, c]
    rw [x, y, z]
  · rw [put_rtc_unfold, put_rtc_unfold, e1, e2, e4]

/-- The 0xD5F9 branch of `SIDE2_D5GetByte`. -/
theorem get_removed_unfold (ad : Adapters) (s : State) (f : Int) :
    SIDE2_D5GetByte ad s 0xD5F9 f = toUBYTE (if s.IDE_Removed ≠ 0 then 1 else 0) := rfl

/-- The 0xD5FC branch of `SIDE2_D5GetByte`. -/
theorem get_sdx_tag_unfold (ad : Adapters) (s : State) (f : Int) :
    SIDE2_D5GetByte ad s 0xD5FC f = toUBYTE (if s.SDX_Enabled ≠ 0 then 0x53 else 0x20) := rfl

/-- The 0xD5E4 branch of `SIDE2_D5GetByte`. -/
theorem get_top_unfold (ad : Adapters) (s : State) (f : Int) :
    SIDE2_D5GetByte ad s 0xD5E4 f = toUBYTE s.Top_Bank_Register := rfl

/-- C16: in every state a read returns 0x32 at 0xD5F8 and the ASCII bytes
`I`, `D`, `E` (0x49, 0x44, 0x45) at 0xD5FD, 0xD5FE and 0xD5FF; at 0xD5F9 it
returns 1 when `IDE_Removed` is true and 0 otherwise. -/
theorem C16_identification_reads (ad : Adapters) (s : State) (f : Int) :
    SIDE2_D5GetByte ad s 0xD5F8 f = 0x32
    ∧ SIDE2_D5GetByte ad s 0xD5FD f = 0x49
    ∧ SIDE2_D5GetByte ad s 0xD5FE f = 0x44
    ∧ SIDE2_D5GetByte ad s 0xD5FF f = 0x45
    ∧ [0x49, 0x44, 0x45] = ['I'.toNat, 'D'.toNat, 'E'.toNat]
    ∧ SIDE2_D5GetByte ad s 0xD5F9 f = (if s.IDE_Removed ≠ 0 then 1 else 0) := by
  refine ⟨rfl, rfl, rfl, rfl, by decide, ?_⟩
  rw [get_removed_unfold]
  split_ifs <;> rfl

/-- C17: a write to an address outside 0xD5E1, 0xD5E2, 0xD5E4 and
0xD5F0-0xD5FB leaves the whole state as it was: every bank and storage
variable, and the record of adapter calls. -/
theorem C17_unhandled_write_noop (s : State) (addr b : Nat)
    (h : ¬(addr = 0xD5E1 ∨ addr = 0xD5E2 ∨ addr = 0xD5E4 ∨ (0xD5F0 ≤ addr ∧ addr ≤ 0xD5FB))) :
    SIDE2_D5PutByte s addr b = s :=
  put_default_unfold s addr b h

/-- C17 at concrete inputs: writes to 0xD5E3, 0xD5FC and 0xD5FF after a cold
start. -/
theorem C17_witness :
    SIDE2_D5PutByte (SIDE2_ColdStart initial) 0xD5E3 0xFF = SIDE2_ColdStart initial
    ∧ SIDE2_D5PutByte (SIDE2_ColdStart initial) 0xD5FC 0x53 = SIDE2_ColdStart initial
    ∧ SIDE2_D5PutByte (SIDE2_ColdStart initial) 0xD5FF 0x00 = SIDE2_ColdStart initial :=
  ⟨C17_unhandled_write_noop _ 0xD5E3 0xFF (by decide),
   C17_unhandled_write_noop _ 0xD5FC 0x53 (by decide),
   C17_unhandled_write_noop _ 0xD5FF 0x00 (by decide)⟩

/-! ## Claims on persistence and on the values of the registers -/

/-- Zero-filling an array of 0x72 bytes leaves 0x72 zeros. -/
theorem memsetBuf_eq (buf : List Nat) (h : buf.length = 0x72) :
    memsetBuf buf = List.replicate 0x72 0 := by
  unfold memsetBuf
  rw [List.drop_of_length_le (le_of_eq h), List.append_nil]

/-- The buffer keeps its size across `fread`. -/
theorem fread_length (buf : List Nat) (n : Nat) (file : List Nat) (h : n ≤ buf.length) :
    (fread buf n file).1.length = buf.length := by
  unfold fread
  simp only [List.length_append, List.length_take, List.length_drop]
  omega

/-- C18: `LoadNVRAM` always produces the buffer it hands to `CDS1305_Load`,
of 0x72 bytes: all zeros when the file cannot be opened or holds fewer than
0x72 bytes, and the first 0x72 bytes of the file otherwise, whatever the
local array held before. -/
theorem C18_load_nvram (buf : List Nat) (hbuf : buf.length = 0x72) :
    LoadNVRAM none buf = List.replicate 0x72 0
    ∧ (∀ bytes : List Nat, bytes.length < 0x72 →
        LoadNVRAM (some bytes) buf = List.replicate 0x72 0)
    ∧ (∀ bytes : List Nat, 0x72 ≤ bytes.length →
        LoadNVRAM (some bytes) buf = bytes.take 0x72)
    ∧ (∀ file : Option (List Nat), (LoadNVRAM file buf).length = 0x72) := by
  have hnone : LoadNVRAM none buf = List.replicate 0x72 0 := memsetBuf_eq buf hbuf
  have hshort : ∀ bytes : List Nat, bytes.length < 0x72 →
      LoadNVRAM (some bytes) buf = List.replicate 0x72 0 := by
    intro bytes hlen
    have hl : (fread buf 0x72 bytes).2 ≠ 0x72 := by
      show min bytes.length 0x72 ≠ 0x72
      omega
    show (if (fread buf 0x72 bytes).2 ≠ 0x72 then memsetBuf (fread buf 0x72 bytes).1
          else (fread buf 0x72 bytes).1) = _
    rw [if_pos hl]
    exact memsetBuf_eq _ ((fread_length buf 0x72 bytes (le_of_eq hbuf.symm)).trans hbuf)
  have hlong : ∀ bytes : List Nat, 0x72 ≤ bytes.length →
      LoadNVRAM (some bytes) buf = bytes.take 0x72 := by
    intro bytes hlen
    have hl : ¬((fread buf 0x72 bytes).2 ≠ 0x72) := by
      show ¬(min bytes.length 0x72 ≠ 0x72)
      omega
    show (if (fread buf 0x72 bytes).2 ≠ 0x72 then memsetBuf (fread buf 0x72 bytes).1
          else (fread buf 0x72 bytes).1) = _
    rw [if_neg hl]
    show bytes.take 0x72 ++ buf.drop (min bytes.length 0x72) = _
    rw [List.drop_of_length_le (by omega), List.append_nil]
  refine ⟨hnone, hshort, hlong, fun file => ?_⟩
  cases file with
  | none => rw [hnone, List.length_replicate]
  | some bytes =>
    by_cases c : bytes.length < 0x72
    · rw [hshort bytes c, List.length_replicate]
    · rw [hlong bytes (by omega), List.length_take]
      omega

/-- C18 at concrete inputs: a local array full of 0xAA, with no file, with a
file of three bytes and with a file of 0x80 bytes. -/
theorem C18_witness :
    LoadNVRAM none (List.replicate 0x72 0xAA) = List.replicate 0x72 0
    ∧ LoadNVRAM (some [1, 2, 3]) (List.replicate 0x72 0xAA) = List.replicate 0x72 0
    ∧ LoadNVRAM (some (List.range 0x80)) (List.replicate 0x72 0xAA)
        = (List.range 0x80).take 0x72 :=
  ⟨(C18_load_nvram (List.replicate 0x72 0xAA) (by decide)).1,
   (C18_load_nvram (List.replicate 0x72 0xAA) (by decide)).2.1 [1, 2, 3] (by decide),
   (C18_load_nvram (List.replicate 0x72 0xAA) (by decide)).2.2.1 (List.range 0x80)
     (by rw [List.length_range]; decide)⟩

/-- C19: in every state reachable by cold starts and register writes,
`SDX_Bank_Register` is -1 or lies in 0..0x3F and `Top_Bank_Register` lies in
0..0x3F; a read of 0xD5E1 returns 0xFF or a value of at most 0x3F, and a read
of 0xD5E4 returns a value of at most 0x3F. -/
theorem C19_register_range (ad : Adapters) (s : State) (f : Int) (hs : Reachable s) :
    (s.SDX_Bank_Register = -1 ∨ (0 ≤ s.SDX_Bank_Register ∧ s.SDX_Bank_Register ≤ 0x3F))
    ∧ (0 ≤ s.Top_Bank_Register ∧ s.Top_Bank_Register ≤ 0x3F)
    ∧ (SIDE2_D5GetByte ad s 0xD5E1 f = 0xFF ∨ SIDE2_D5GetByte ad s 0xD5E1 f ≤ 0x3F)
    ∧ SIDE2_D5GetByte ad s 0xD5E4 f ≤ 0x3F := by
  obtain ⟨hsdx, htop⟩ := hs.regRange
  refine ⟨hsdx, htop, ?_, ?_⟩
  · rw [get_sdx_unfold]
    unfold toUBYTE
    rcases hsdx with h | h
    · left
      rw [h]
      rfl
    · right
      omega
  · rw [get_top_unfold]
    unfold toUBYTE
    omega

/-- C19 at a concrete input: after a cold start and a write of 0xC5 to both
bank registers, 0xD5E1 holds -1 and reads 0xFF, 0xD5E4 holds 0x25. -/
theorem C19_witness :
    (SIDE2_D5PutByte (SIDE2_D5PutByte (SIDE2_ColdStart initial) 0xD5E1 0xC5) 0xD5E4 0xC5).SDX_Bank_Register = -1
    ∧ (SIDE2_D5PutByte (SIDE2_D5PutByte (SIDE2_ColdStart initial) 0xD5E1 0xC5) 0xD5E4 0xC5).Top_Bank_Register = 0x25
    ∧ SIDE2_D5GetByte ⟨0, fun _ _ => 0⟩
        (SIDE2_D5PutByte (SIDE2_D5PutByte (SIDE2_ColdStart initial) 0xD5E1 0xC5) 0xD5E4 0xC5)
        0xD5E4 0 ≤ 0x3F :=
  ⟨by decide, by decide,
   (C19_register_range ⟨0, fun _ _ => 0⟩ _ 0
      (Reachable.putByte 0xD5E4 0xC5 (by decide) (by decide)
        (Reachable.putByte 0xD5E1 0xC5 (by decide) (by decide)
          (Reachable.coldStart Reachable.init)))).2.2.2⟩

/-- `SDX_Enabled` keeps its initial value `FALSE` in every reachable state. -/
theorem ReachableAll.sdx_enabled {s : State} (h : ReachableAll s) : s.SDX_Enabled = FALSE := by
  induction h with
  | init => rfl
  | @coldStart s _ ih =>
    rw [SIDE2_ColdStart_eq]
    exact ih
  | @putByte s addr byte _ _ _ ih =>
    rw [(put_storage_frame s addr byte).2.1]
    exact ih
  | getByte ad addr f _ _ ih => exact ih

/-- C20: no operation assigns `SDX_Enabled` (cold start, register write,
register read), so it is `FALSE` in every reachable state, where a read of
0xD5FC returns the space 0x20 and not `S` (0x53), and the bytes read at
0xD5FC-0xD5FF are 0x20, 0x49, 0x44, 0x45. -/
theorem C20_sdx_enabled_constant (s : State) :
    (SIDE2_ColdStart s).SDX_Enabled = s.SDX_Enabled
    ∧ (∀ addr b : Nat, (SIDE2_D5PutByte s addr b).SDX_Enabled = s.SDX_Enabled)
    ∧ (∀ (ad : Adapters) (addr : Nat) (f : Int),
        (getByteStep ad s addr f).2.SDX_Enabled = s.SDX_Enabled)
    ∧ (ReachableAll s → s.SDX_Enabled = FALSE
        ∧ ∀ (ad : Adapters) (f : Int),
            SIDE2_D5GetByte ad s 0xD5FC f = 0x20 ∧ SIDE2_D5GetByte ad s 0xD5FC f ≠ 0x53
            ∧ [SIDE2_D5GetByte ad s 0xD5FC f, SIDE2_D5GetByte ad s 0xD5FD f,
               SIDE2_D5GetByte ad s 0xD5FE f, SIDE2_D5GetByte ad s 0xD5FF f]
              = [0x20, 0x49, 0x44, 0x45]) := by
  refine ⟨?_, fun addr b => (put_storage_frame s addr b).2.1, fun _ _ _ => rfl, fun h => ?_⟩
  · rw [SIDE2_ColdStart_eq]
  · have h0 : s.SDX_Enabled = FALSE := h.sdx_enabled
    refine ⟨h0, fun ad f => ?_⟩
    have hc : SIDE2_D5GetByte ad s 0xD5FC f = 0x20 := by
      rw [get_sdx_tag_unfold, h0]
      rfl
    refine ⟨hc, ?_, ?_⟩
    · rw [hc]
      decide
    · rw [hc]
      rfl

/-- C20 at a concrete input: after a cold start and a write of 0x53 to
0xD5FC, the four identification bytes still read 0x20, 0x49, 0x44, 0x45. -/
theorem C20_witness :
    (SIDE2_D5PutByte (SIDE2_ColdStart initial) 0xD5FC 0x53).SDX_Enabled = FALSE
    ∧ [SIDE2_D5GetByte ⟨0, fun _ _ => 0⟩ (SIDE2_D5PutByte (SIDE2_ColdStart initial) 0xD5FC 0x53) 0xD5FC 0,
       SIDE2_D5GetByte ⟨0, fun _ _ => 0⟩ (SIDE2_D5PutByte (SIDE2_ColdStart initial) 0xD5FC 0x53) 0xD5FD 0,
       SIDE2_D5GetByte ⟨0, fun _ _ => 0⟩ (SIDE2_D5PutByte (SIDE2_ColdStart initial) 0xD5FC 0x53) 0xD5FE 0,
       SIDE2_D5GetByte ⟨0, fun _ _ => 0⟩ (SIDE2_D5PutByte (SIDE2_ColdStart initial) 0xD5FC 0x53) 0xD5FF 0]
      = [0x20, 0x49, 0x44, 0x45] :=
  ⟨((C20_sdx_enabled_constant (SIDE2_D5PutByte (SIDE2_ColdStart initial) 0xD5FC 0x53)).2.2.2
      (ReachableAll.putByte 0xD5FC 0x53 (by decide) (by decide)
        (ReachableAll.coldStart ReachableAll.init))).1,
   (((C20_sdx_enabled_constant (SIDE2_D5PutByte (SIDE2_ColdStart initial) 0xD5FC 0x53)).2.2.2
      (ReachableAll.putByte 0xD5FC 0x53 (by decide) (by decide)
        (ReachableAll.coldStart ReachableAll.init))).2 ⟨0, fun _ _ => 0⟩ 0).2.2⟩

end Side2
